import Mathlib

/-!
Shallow embedding of `source/extensions/omni.isaac.orbit/omni/isaac/orbit/sim/simulation_context.py`
(class `SimulationContext`, a subclass of the Isaac Sim core simulation context).

The adapter's observable behaviour is modelled as pure state-transition
functions.  Mutations performed on the Python object (`self.render_mode`,
`self._viewport_context.updates_enabled`, `self._viewport_window.visible`,
`self._render_throttle_counter`, the timeline-callback registry) become
fields of explicit state records; calls delegated to the external engine
(`super().render()`, `super().step()`, `self.app.update()`, settings writes,
the base constructor) become recorded events; Python exceptions
(`RuntimeError`, `ValueError`) become explicit error values returned next to
the post-state, so that the state at the moment of the raise is observable.
-/

namespace Orbit

/-- The four render modes of `SimulationContext.RenderMode`. -/
inductive RenderMode where
  | HEADLESS
  | NO_RENDERING
  | PARTIAL_RENDERING
  | FULL_RENDERING
  deriving DecidableEq, Repr

/-- Python exceptions raised by the adapter itself.  `RuntimeError` raised at
construction / scene-api validation is the spec's `PreconditionError`;
`ValueError` raised by `set_render_mode` is the spec's `InvalidArgument`. -/
inductive PyError where
  | preconditionError
  | invalidArgument
  deriving DecidableEq, Repr

/-- An argument passed to `set_render_mode`.  Python is dynamically typed, so
the caller may pass any object: `mode m` is a genuine `RenderMode` member and
`invalid n` stands for any object that is not a `RenderMode` member (such
objects are pairwise distinguished by `n` and compare unequal to every
`RenderMode` member). -/
inductive ModeArg where
  | mode (m : RenderMode)
  | invalid (n : Nat)
  deriving DecidableEq, Repr

/-- Python `==` between a `set_render_mode` argument and the stored
`self.render_mode` (a genuine `RenderMode` member): an object that is not a
`RenderMode` member is never equal to one. -/
def ModeArg.eqMode : ModeArg → RenderMode → Bool
  | .mode m, r => m == r
  | .invalid _, _ => false

/-- The mutable per-instance state touched by `set_render_mode` and
`render`: the current render mode, the viewport flags
(`_viewport_context.updates_enabled`, `_viewport_window.visible`) and the
render-throttle counter and period. -/
structure SimState where
  render_mode : RenderMode
  updates_enabled : Bool
  window_visible : Bool
  render_throttle_counter : Nat
  render_throttle_period : Nat
  fabric_iface : Bool
  deriving DecidableEq, Repr

/-- `SimulationContext.set_render_mode` (simulation_context.py:243-277).
Returns the post-state together with the raised exception, if any: the body
runs only when the argument differs from the current mode and the current
mode is not `HEADLESS`; the three supported targets toggle the viewport
flags (and `NO_RENDERING` additionally resets the throttle counter) and then
store the new mode; any other argument raises `ValueError` before any
mutation. -/
def set_render_mode (s : SimState) (mode : ModeArg) : SimState × Option PyError :=
  if mode.eqMode s.render_mode = false ∧ s.render_mode ≠ RenderMode.HEADLESS then
    match mode with
    | .mode .FULL_RENDERING =>
        ({ s with updates_enabled := true, window_visible := true,
                  render_mode := RenderMode.FULL_RENDERING }, none)
    | .mode .PARTIAL_RENDERING =>
        ({ s with updates_enabled := false, window_visible := false,
                  render_mode := RenderMode.PARTIAL_RENDERING }, none)
    | .mode .NO_RENDERING =>
        ({ s with updates_enabled := false, window_visible := false,
                  render_throttle_counter := 0,
                  render_mode := RenderMode.NO_RENDERING }, none)
    | _ => (s, some PyError.invalidArgument)
  else
    (s, none)

/-- The three targets accepted by the body of `set_render_mode`
(`FULL_RENDERING`, `PARTIAL_RENDERING`, `NO_RENDERING`); every other
argument falls into the `else: raise ValueError` branch. -/
def ModeArg.isSupportedTarget : ModeArg → Bool
  | .mode .FULL_RENDERING => true
  | .mode .PARTIAL_RENDERING => true
  | .mode .NO_RENDERING => true
  | _ => false

/-- The body of `SimulationContext.render` after the optional mode change
(simulation_context.py:375-389).  In `NO_RENDERING` mode the throttle
counter is incremented and the base `super().render()` runs only when the
incremented counter is a multiple of the throttle period, in which case the
counter is reset to 0; in every other mode the flatcache data is flushed
(when the fabric interface is present, a delegated call with no effect on
this state) and `super().render()` always runs.  The boolean component
records whether `super().render()` was invoked. -/
def renderBody (s : SimState) : SimState × Option PyError × Bool :=
  if s.render_mode = RenderMode.NO_RENDERING then
    if (s.render_throttle_counter + 1) % s.render_throttle_period = 0 then
      ({ s with render_throttle_counter := 0 }, none, true)
    else
      ({ s with render_throttle_counter := s.render_throttle_counter + 1 }, none, false)
  else
    (s, none, true)

/-- `SimulationContext.render` (simulation_context.py:354-389): when a mode
argument is given, first delegate to `set_render_mode` (an exception raised
there propagates and no render happens); then dispatch on the current render
mode as in `renderBody`. -/
def render (s : SimState) (mode : Option ModeArg) : SimState × Option PyError × Bool :=
  match mode with
  | none => renderBody s
  | some m =>
    match set_render_mode s m with
    | (s1, none) => renderBody s1
    | (s1, some e) => (s1, some e, false)

/-- Number of base (`super().render()`) renders performed by `k` consecutive
calls to `render()` with no mode argument, starting from state `s`. -/
def renderSteps : SimState → Nat → Nat
  | _, 0 => 0
  | s, n + 1 =>
    (if (render s none).2.2 then 1 else 0) + renderSteps (render s none).1 n

/-- PhysX sub-configuration of `SimulationCfg` (fields of `cfg.physx`
consumed by `simulation_context.py`).  `SimulationCfg` itself lives in
`simulation_cfg.py`, outside the embedded file; only the fields this file
reads are modelled, with unconstrained values. -/
structure PhysxCfg where
  enable_ccd : Bool
  gpu_collision_stack_size : Nat
  min_position_iteration_count : Nat
  max_position_iteration_count : Nat
  min_velocity_iteration_count : Nat
  max_velocity_iteration_count : Nat

/-- The fields of the configuration object `SimulationCfg` that
`simulation_context.py` reads or writes.  The class is defined in
`simulation_cfg.py` (outside the embedded file), so field values carry no
constraints here; the default-constructed `SimulationCfg()` is modelled as
an arbitrary quantified value of this type. -/
structure SimulationCfg where
  dt : ℝ
  substeps : Nat
  device : String
  physics_prim_path : String
  gravity : Fin 3 → ℝ
  disable_contact_processing : Bool
  enable_scene_query_support : Bool
  shutdown_app_on_stop : Bool
  use_flatcache : Bool
  use_fabric : Bool
  physx : PhysxCfg

/-- External-engine facts read during construction: whether
`stage_utils.get_current_stage()` is non-`None`, and the value of the
`/app/window/enabled` carb setting. -/
structure Env where
  stage_exists : Bool
  window_enabled : Bool
  deriving DecidableEq, Repr

/-- Effects performed by the constructor that are delegated to the external
engine: carb settings writes and the call to the base-class constructor
`super().__init__`. -/
inductive InitEvent where
  | setSetting (name : String) (value : Bool)
  | superInit
  deriving DecidableEq, Repr

/-- Result of running the constructor: the delegated effects in order, the
raised exception (if any), the resulting render-related instance state (on
success), and the stored configuration (possibly mutated). -/
structure InitResult where
  events : List InitEvent
  error : Option PyError
  state : Option SimState
  cfg : SimulationCfg

/-- `SimulationContext.__init__` (simulation_context.py:103-192).  The
configuration defaults to `SimulationCfg()` (here: the `defaultCfg`
argument) when `None`; the stage-existence check raises `RuntimeError`
before any settings write or delegation; otherwise the fixed settings are
written, the headless flag is read once, the render-related state is set
up (in GUI mode: `FULL_RENDERING`, viewport updates enabled, throttle
counter 0 and period 5; in headless mode: `HEADLESS`, no viewport, and the
throttle attributes are never created — modelled as 0), GUI mode forces
`enable_scene_query_support` on the stored configuration, and finally the
base constructor is invoked. -/
def SimulationContext.init (cfg? : Option SimulationCfg) (defaultCfg : SimulationCfg)
    (env : Env) : InitResult :=
  let cfg := cfg?.getD defaultCfg
  if env.stage_exists = false then
    { events := [], error := some PyError.preconditionError, state := none, cfg := cfg }
  else
    let evs :=
      [InitEvent.setSetting "/persistent/omnihydra/useSceneGraphInstancing" true,
       InitEvent.setSetting "/physics/physxDispatcher" true]
      ++ (if cfg.disable_contact_processing then
            [InitEvent.setSetting "/physics/disableContactProcessing" true] else [])
      ++ [InitEvent.setSetting "/physics/collisionConeCustomGeometry" false,
          InitEvent.setSetting "/physics/collisionCylinderCustomGeometry" false]
    let headless := !env.window_enabled
    let st : SimState :=
      if headless then
        { render_mode := RenderMode.HEADLESS, updates_enabled := false,
          window_visible := false, render_throttle_counter := 0,
          render_throttle_period := 0, fabric_iface := false }
      else
        { render_mode := RenderMode.FULL_RENDERING, updates_enabled := true,
          window_visible := true, render_throttle_counter := 0,
          render_throttle_period := 5, fabric_iface := false }
    let cfg2 := if headless then cfg else { cfg with enable_scene_query_support := true }
    { events := evs ++ [InitEvent.superInit], error := none, state := some st, cfg := cfg2 }

/-- State of the external engine's timeline, queried through the base-class
predicates `is_playing()` / `is_stopped()`. -/
inductive TimelineState where
  | playing
  | paused
  | stopped
  deriving DecidableEq, Repr

/-- `self.is_playing()` on an observed timeline state. -/
def is_playing : TimelineState → Bool
  | TimelineState.playing => true
  | _ => false

/-- `self.is_stopped()` on an observed timeline state. -/
def is_stopped : TimelineState → Bool
  | TimelineState.stopped => true
  | _ => false

/-- Observable actions performed by `SimulationContext.step`: a call to
`self.render()`, the forced `self.app.update()` tick, and the delegated
`super().step(render=...)` physics step. -/
inductive StepEvent where
  | render
  | appUpdate
  | physicsStep (renderArg : Bool)
  deriving DecidableEq, Repr

/-- The busy-wait loop of `SimulationContext.step`
(simulation_context.py:341-345).  The timeline evolves externally; `t n` is
the timeline state seen by the `n`-th query, so consecutive queries may see
different states.  Each iteration queries `is_playing()` (exit before
rendering when playing), calls `self.render()`, then queries `is_stopped()`
(exit after the render when stopped).  `fuel` bounds the number of
iterations: `none` means the loop is still spinning after `fuel`
iterations.  On exit, returns the emitted events together with the index of
the query that caused the exit. -/
def pollLoop (t : Nat → TimelineState) : Nat → Nat → Option (List StepEvent × Nat)
  | _, 0 => none
  | i, fuel + 1 =>
    if is_playing (t i) then some ([], i)
    else if is_stopped (t (i + 1)) then some ([StepEvent.render], i + 1)
    else
      match pollLoop t (i + 2) fuel with
      | some (evs, j) => some (StepEvent.render :: evs, j)
      | none => none

/-- `SimulationContext.step` (simulation_context.py:327-352).  Query 0 is
the outer `if not self.is_playing()`: when playing, delegate a single
physics step at once.  Otherwise run the busy-wait loop (whose first
`is_playing()` query is query 1), then perform the forced `app.update()`
tick and finally the delegated physics step.  `none` means the call has not
returned within `fuel` loop iterations. -/
def stepFn (t : Nat → TimelineState) (renderArg : Bool) (fuel : Nat) :
    Option (List StepEvent) :=
  if is_playing (t 0) then some [StepEvent.physicsStep renderArg]
  else
    match pollLoop t 1 fuel with
    | some (evs, _) => some (evs ++ [StepEvent.appUpdate, StepEvent.physicsStep renderArg])
    | none => none

/-- The name under which `reset` registers the shutdown callback. -/
def shutdownCallbackName : String := "shutdown_app_on_stop"

/-- The registry of timeline callbacks kept by the base class, in
registration order (names passed to `add_timeline_callback`). -/
structure CallbackState where
  timeline_callbacks : List String
  deriving DecidableEq, Repr

/-- `self.timeline_callback_exists(name)`: whether a callback of that name
has been registered. -/
def timeline_callback_exists (s : CallbackState) (name : String) : Bool :=
  s.timeline_callbacks.contains name

/-- `self.add_timeline_callback(name, fn)`: registers one more callback
under `name`. -/
def add_timeline_callback (s : CallbackState) (name : String) : CallbackState :=
  { s with timeline_callbacks := s.timeline_callbacks ++ [name] }

/-- Delegated effects of `SimulationContext.reset`. -/
inductive ResetEvent where
  | forceLoadPhysics
  | superReset (soft : Bool)
  deriving DecidableEq, Repr

/-- `SimulationContext.reset` (simulation_context.py:311-325): when not a
soft reset, force a physics reload from USD; delegate to the base reset;
then, when the `shutdown_app_on_stop` configuration flag is set and no
callback of that name exists yet, register the shutdown callback. -/
def reset (cfg : SimulationCfg) (s : CallbackState) (soft : Bool) :
    CallbackState × List ResetEvent :=
  let evs := (if soft then [] else [ResetEvent.forceLoadPhysics])
    ++ [ResetEvent.superReset soft]
  if cfg.shutdown_app_on_stop && !(timeline_callback_exists s shutdownCallbackName) then
    (add_timeline_callback s shutdownCallbackName, evs)
  else
    (s, evs)

/-- `n` consecutive calls to `reset(soft=False)`. -/
def resetN (cfg : SimulationCfg) : Nat → CallbackState → CallbackState
  | 0, s => s
  | n + 1, s => resetN cfg n (reset cfg s false).1

/-- Accumulates decimal digits left to right; fails at the first non-digit
character. -/
def parseNatAux : List Char → Nat → Option Nat
  | [], acc => some acc
  | c :: cs, acc =>
    if c.isDigit then parseNatAux cs (acc * 10 + (c.toNat - 48)) else none

/-- Parses a non-empty all-digit character list as a natural number. -/
def parseNatDigits : List Char → Option Nat
  | [] => none
  | cs => parseNatAux cs 0

/-- Python `int(str)` applied to a raw version component: an optional
leading minus sign followed by a non-empty run of decimal digits. -/
def pyInt (s : String) : Option Int :=
  match s.data with
  | '-' :: cs => (parseNatDigits cs).map (fun n => -(n : Int))
  | cs => (parseNatDigits cs).map (fun n => (n : Int))

/-- `SimulationContext.get_version` (simulation_context.py:206-217): the
stored `self._isaacsim_version` sequence (returned by
`omni.isaac.version.get_version()`, a sequence of strings) is indexed at
[2], [3], [4] and each component is parsed with `int(...)`, in that order;
an out-of-range index (`IndexError`) or an unparsable component
(`ValueError`) makes the call fail, modelled as `none`. -/
def get_version (v : List String) : Option (Int × Int × Int) := do
  let s2 ← v.get? 2
  let a ← pyInt s2
  let s3 ← v.get? 3
  let b ← pyInt s3
  let s4 ← v.get? 4
  let c ← pyInt s4
  pure (a, b, c)

/-- `np.linalg.norm` of the 3-component gravity vector
(simulation_context.py:447), over the reals. -/
noncomputable def norm3 (v : Fin 3 → ℝ) : ℝ :=
  Real.sqrt (v 0 ^ 2 + v 1 ^ 2 + v 2 ^ 2)

/-- `gravity / gravity_magnitude` (simulation_context.py:448): the gravity
vector divided componentwise by its norm, with no guard against a zero
norm. -/
noncomputable def gravity_direction (v : Fin 3 → ℝ) : Fin 3 → ℝ :=
  fun i => v i / norm3 v

/-- The attribute values written on the physics scene by
`_set_additional_physx_params` on success. -/
structure PhysxSceneWrites where
  enable_ccd : Bool
  gpu_collision_stack_size : Nat
  gravity_direction_attr : Fin 3 → ℝ
  gravity_magnitude_attr : ℝ
  iteration_attrs : List (String × Nat)
  material_path : String

/-- `SimulationContext._set_additional_physx_params`
(simulation_context.py:428-471): raise `RuntimeError` when the PhysX scene
API is missing; otherwise write the CCD flag, the GPU collision-stack size,
the gravity decomposed into a direction vector (`gravity / ‖gravity‖`,
computed unconditionally) and a magnitude (`‖gravity‖`), the
version-dependent solver iteration-count attributes (the 2022 combined API
vs. the split position/velocity API), and create and bind the default
physics material at `{physics_prim_path}/defaultMaterial`. -/
noncomputable def set_additional_physx_params (cfg : SimulationCfg) (scene_api_exists : Bool)
    (version_year : Int) : Except PyError PhysxSceneWrites :=
  if scene_api_exists = false then
    Except.error PyError.preconditionError
  else
    Except.ok
      { enable_ccd := cfg.physx.enable_ccd
        gpu_collision_stack_size := cfg.physx.gpu_collision_stack_size
        gravity_direction_attr := gravity_direction cfg.gravity
        gravity_magnitude_attr := norm3 cfg.gravity
        iteration_attrs :=
          if version_year = 2022 then
            [("CreateMinIterationCountAttr", cfg.physx.min_position_iteration_count),
             ("CreateMaxIterationCountAttr", cfg.physx.max_position_iteration_count)]
          else
            [("CreateMinPositionIterationCountAttr", cfg.physx.min_position_iteration_count),
             ("CreateMaxPositionIterationCountAttr", cfg.physx.max_position_iteration_count),
             ("CreateMinVelocityIterationCountAttr", cfg.physx.min_velocity_iteration_count),
             ("CreateMaxVelocityIterationCountAttr", cfg.physx.max_velocity_iteration_count)]
        material_path := cfg.physics_prim_path ++ "/defaultMaterial" }

end Orbit

namespace Orbit

/-- C2: `RenderMode.HEADLESS` is absorbing — whenever the current render
mode is `HEADLESS`, `set_render_mode x` for every argument `x` returns
without an exception and leaves the render mode and all viewport/window
state (the whole state) unchanged. -/
theorem headless_is_absorbing (s : SimState) (x : ModeArg)
    (h : s.render_mode = RenderMode.HEADLESS) :
    set_render_mode s x = (s, none) := by
  simp [set_render_mode, h]

/-- Witness for C2 at a concrete headless state and argument. -/
theorem headless_is_absorbing_witness :
    set_render_mode ⟨RenderMode.HEADLESS, false, false, 0, 5, false⟩
        (ModeArg.mode RenderMode.FULL_RENDERING)
      = (⟨RenderMode.HEADLESS, false, false, 0, 5, false⟩, none) :=
  headless_is_absorbing ⟨RenderMode.HEADLESS, false, false, 0, 5, false⟩
    (ModeArg.mode RenderMode.FULL_RENDERING) rfl

/-- C4 counterexample: the claim "for every mode argument that is not one of
the supported `RenderMode` values, `set_render_mode` raises
`InvalidArgument`" is false as stated: when the current render mode is
`HEADLESS`, the guard short-circuits and an unsupported argument is silently
ignored (no exception is raised). -/
theorem set_render_mode_invalid_not_always_raises :
    ¬ (∀ (s : SimState) (a : ModeArg), a.isSupportedTarget = false →
        (set_render_mode s a).2 = some PyError.invalidArgument) := by
  intro h
  have := h ⟨RenderMode.HEADLESS, false, false, 0, 5, false⟩ (ModeArg.invalid 0) rfl
  simp [set_render_mode] at this

/-- C4 (amended): for every argument that is not one of the three supported
targets, `set_render_mode` raises `InvalidArgument` provided the current
render mode is not `HEADLESS`; in `HEADLESS` mode the call is a silent
no-op. -/
theorem set_render_mode_invalid_raises (s : SimState) (a : ModeArg)
    (ha : a.isSupportedTarget = false)
    (hh : s.render_mode ≠ RenderMode.HEADLESS) :
    (set_render_mode s a).2 = some PyError.invalidArgument := by
  have heq : a.eqMode s.render_mode = false := by
    cases a with
    | mode m =>
        cases m <;> cases hm : s.render_mode <;>
          simp_all [ModeArg.eqMode, ModeArg.isSupportedTarget]
    | invalid n => rfl
  cases a with
  | mode m =>
      cases m <;> simp_all [set_render_mode, ModeArg.isSupportedTarget, ModeArg.eqMode]
  | invalid n => simp [set_render_mode, heq, hh]

/-- Witness for C4 (amended): in `FULL_RENDERING` mode, passing an object
that is not a `RenderMode` member raises `InvalidArgument`. -/
theorem set_render_mode_invalid_raises_witness :
    (set_render_mode ⟨RenderMode.FULL_RENDERING, true, true, 0, 5, false⟩
        (ModeArg.invalid 0)).2 = some PyError.invalidArgument :=
  set_render_mode_invalid_raises
    ⟨RenderMode.FULL_RENDERING, true, true, 0, 5, false⟩
    (ModeArg.invalid 0) rfl (by decide)

/-- C9: `set_render_mode` is atomic on error — whenever the call raises
(which only happens for an unsupported target), the post-state equals the
pre-state: the render mode and the viewport `updates_enabled` / window
visibility flags are unchanged. -/
theorem set_render_mode_atomic_on_error (s : SimState) (a : ModeArg)
    (h : (set_render_mode s a).2.isSome) :
    (set_render_mode s a).1 = s := by
  unfold set_render_mode at h ⊢
  split at h
  next hc =>
    rw [if_pos hc]
    cases a with
    | mode m => cases m <;> simp_all
    | invalid n => rfl
  next hc =>
    rw [if_neg hc]

/-- Witness for C9 at a concrete state and unsupported argument. -/
theorem set_render_mode_atomic_on_error_witness :
    (set_render_mode ⟨RenderMode.FULL_RENDERING, true, true, 0, 5, false⟩
        (ModeArg.invalid 7)).1
      = ⟨RenderMode.FULL_RENDERING, true, true, 0, 5, false⟩ :=
  set_render_mode_atomic_on_error
    ⟨RenderMode.FULL_RENDERING, true, true, 0, 5, false⟩
    (ModeArg.invalid 7) (by decide)

/-- In `NO_RENDERING` mode, starting below the throttle period, the number
of base renders performed by `k` consecutive `render()` calls is
`(counter + k) / period`. -/
theorem renderSteps_no_rendering_eq (k : Nat) :
    ∀ s : SimState, s.render_mode = RenderMode.NO_RENDERING →
      0 < s.render_throttle_period →
      s.render_throttle_counter < s.render_throttle_period →
      renderSteps s k = (s.render_throttle_counter + k) / s.render_throttle_period := by
  induction k with
  | zero =>
      intro s hm hp hc
      simp [renderSteps, Nat.div_eq_of_lt hc]
  | succ n ih =>
      intro s hm hp hc
      by_cases ht : (s.render_throttle_counter + 1) % s.render_throttle_period = 0
      · have hcp : s.render_throttle_counter + 1 = s.render_throttle_period := by
          rcases Nat.lt_or_ge (s.render_throttle_counter + 1) s.render_throttle_period
            with h2 | h2
          · rw [Nat.mod_eq_of_lt h2] at ht
            omega
          · omega
        have hr : render s none = ({ s with render_throttle_counter := 0 }, none, true) := by
          simp [render, renderBody, hm, ht]
        have ihs := ih { s with render_throttle_counter := 0 } hm hp hp
        rw [show renderSteps s (n + 1)
              = (if (render s none).2.2 then 1 else 0) + renderSteps (render s none).1 n
            from rfl]
        rw [hr]
        simp only [ihs]
        rw [show s.render_throttle_counter + (n + 1) = n + s.render_throttle_period
            from by omega]
        rw [Nat.add_div_right n hp]
        simp [Nat.add_comm]
      · have hlt : s.render_throttle_counter + 1 < s.render_throttle_period := by
          rcases Nat.lt_or_ge (s.render_throttle_counter + 1) s.render_throttle_period
            with h2 | h2
          · exact h2
          · have he : s.render_throttle_counter + 1 = s.render_throttle_period := by omega
            rw [he] at ht
            simp [Nat.mod_self] at ht
        have hr : render s none
            = ({ s with render_throttle_counter := s.render_throttle_counter + 1 },
               none, false) := by
          simp [render, renderBody, hm, ht]
        have ihs := ih { s with render_throttle_counter := s.render_throttle_counter + 1 }
          hm hp hlt
        rw [show renderSteps s (n + 1)
              = (if (render s none).2.2 then 1 else 0) + renderSteps (render s none).1 n
            from rfl]
        rw [hr]
        simp only [ihs]
        rw [show s.render_throttle_counter + 1 + n = s.render_throttle_counter + (n + 1)
            from by omega]
        simp

/-- C3: in `NO_RENDERING` mode a full (non-throttled) base render occurs
exactly once per `render_throttle_period` consecutive `render()` calls; the
throttle counter is reset to 0 immediately after a triggering call and upon
every transition into `NO_RENDERING`; and in GUI (non-headless) mode the
constructor initialises the period to its default 5 with counter 0. -/
theorem no_rendering_throttle_exactly_once
    (s t u : SimState) (cfg? : Option SimulationCfg) (dflt : SimulationCfg)
    (env : Env) (st : SimState)
    (hm : s.render_mode = RenderMode.NO_RENDERING)
    (hp : 0 < s.render_throttle_period)
    (hc : s.render_throttle_counter < s.render_throttle_period)
    (htm : t.render_mode = RenderMode.NO_RENDERING)
    (htrig : (render t none).2.2 = true)
    (hu1 : u.render_mode ≠ RenderMode.NO_RENDERING)
    (hu2 : u.render_mode ≠ RenderMode.HEADLESS)
    (hw : env.window_enabled = true)
    (hst : (SimulationContext.init cfg? dflt env).state = some st) :
    renderSteps s s.render_throttle_period = 1
    ∧ (render t none).1.render_throttle_counter = 0
    ∧ (set_render_mode u (ModeArg.mode RenderMode.NO_RENDERING)).1.render_throttle_counter = 0
    ∧ st.render_throttle_period = 5 ∧ st.render_throttle_counter = 0 := by
  refine ⟨?_, ?_, ?_, ?_⟩
  · rw [renderSteps_no_rendering_eq s.render_throttle_period s hm hp hc]
    rw [Nat.add_div_right _ hp, Nat.div_eq_of_lt hc]
  · by_cases htr : (t.render_throttle_counter + 1) % t.render_throttle_period = 0
    · simp [render, renderBody, htm, htr]
    · simp [render, renderBody, htm, htr] at htrig
  · cases hru : u.render_mode with
    | NO_RENDERING => exact absurd hru hu1
    | HEADLESS => exact absurd hru hu2
    | PARTIAL_RENDERING => simp [set_render_mode, ModeArg.eqMode, hru]
    | FULL_RENDERING => simp [set_render_mode, ModeArg.eqMode, hru]
  · by_cases hs : env.stage_exists = false
    · simp [SimulationContext.init, hs] at hst
    · simp [SimulationContext.init, hs, hw] at hst
      rw [← hst]
      exact ⟨rfl, rfl⟩

/-- Witness for C3 at concrete states (period 5), with the construction run
against a GUI environment. -/
theorem no_rendering_throttle_exactly_once_witness :
    renderSteps ⟨RenderMode.NO_RENDERING, false, false, 0, 5, false⟩ 5 = 1
    ∧ (render ⟨RenderMode.NO_RENDERING, false, false, 4, 5, false⟩
        none).1.render_throttle_counter = 0
    ∧ (set_render_mode ⟨RenderMode.FULL_RENDERING, true, true, 3, 5, false⟩
        (ModeArg.mode RenderMode.NO_RENDERING)).1.render_throttle_counter = 0
    ∧ SimState.render_throttle_period
        ⟨RenderMode.FULL_RENDERING, true, true, 0, 5, false⟩ = 5
    ∧ SimState.render_throttle_counter
        ⟨RenderMode.FULL_RENDERING, true, true, 0, 5, false⟩ = 0 :=
  no_rendering_throttle_exactly_once
    ⟨RenderMode.NO_RENDERING, false, false, 0, 5, false⟩
    ⟨RenderMode.NO_RENDERING, false, false, 4, 5, false⟩
    ⟨RenderMode.FULL_RENDERING, true, true, 3, 5, false⟩
    (some ⟨0, 0, "", "", fun _ => 0, false, false, false, false, false,
      ⟨false, 0, 0, 0, 0, 0⟩⟩)
    ⟨0, 0, "", "", fun _ => 0, false, false, false, false, false,
      ⟨false, 0, 0, 0, 0, 0⟩⟩
    ⟨true, true⟩
    ⟨RenderMode.FULL_RENDERING, true, true, 0, 5, false⟩
    rfl (by decide) (by decide) rfl (by decide) (by decide) (by decide) rfl rfl

/-- C5: for every configuration (including the defaulted one obtained from
`cfg = None`), constructing the adapter when the external stage does not
exist raises `RuntimeError` (the spec's `PreconditionError`) and performs no
delegation to the base engine constructor (indeed no delegated effect at
all). -/
theorem init_without_stage_fails (cfg? : Option SimulationCfg)
    (dflt : SimulationCfg) (env : Env)
    (h : env.stage_exists = false) :
    (SimulationContext.init cfg? dflt env).error = some PyError.preconditionError
    ∧ InitEvent.superInit ∉ (SimulationContext.init cfg? dflt env).events := by
  constructor
  · simp [SimulationContext.init, h]
  · simp [SimulationContext.init, h]

/-- While the timeline is never playing and never stopped, the busy-wait
loop of `step()` never exits, whatever iteration bound is allowed. -/
theorem pollLoop_spins_while_paused (t : Nat → TimelineState)
    (h : ∀ i, t i = TimelineState.paused) :
    ∀ fuel i, pollLoop t i fuel = none := by
  intro fuel
  induction fuel with
  | zero => intro i; rfl
  | succ n ih =>
      intro i
      rw [show pollLoop t i (n + 1)
            = (if is_playing (t i) then some ([], i)
               else if is_stopped (t (i + 1)) then some ([StepEvent.render], i + 1)
               else
                 match pollLoop t (i + 2) n with
                 | some (evs, j) => some (StepEvent.render :: evs, j)
                 | none => none)
          from rfl]
      rw [h i, h (i + 1), ih (i + 2)]
      rfl

/-- Whenever the busy-wait loop of `step()` exits, the events it emitted are
render calls only, and the query that caused the exit saw the timeline
playing or stopped. -/
theorem pollLoop_only_renders (t : Nat → TimelineState) :
    ∀ fuel i evs j, pollLoop t i fuel = some (evs, j) →
      evs = List.replicate evs.length StepEvent.render
      ∧ (is_playing (t j) = true ∨ is_stopped (t j) = true) := by
  intro fuel
  induction fuel with
  | zero =>
      intro i evs j h
      exact absurd h (by simp [pollLoop])
  | succ n ih =>
      intro i evs j h
      rw [show pollLoop t i (n + 1)
            = (if is_playing (t i) then some ([], i)
               else if is_stopped (t (i + 1)) then some ([StepEvent.render], i + 1)
               else
                 match pollLoop t (i + 2) n with
                 | some (evs, j) => some (StepEvent.render :: evs, j)
                 | none => none)
          from rfl] at h
      by_cases h1 : is_playing (t i) = true
      · rw [if_pos h1] at h
        injection h with hpair
        injection hpair with he hj
        subst he
        subst hj
        exact ⟨rfl, Or.inl h1⟩
      · rw [if_neg h1] at h
        by_cases h2 : is_stopped (t (i + 1)) = true
        · rw [if_pos h2] at h
          injection h with hpair
          injection hpair with he hj
          subst he
          subst hj
          exact ⟨rfl, Or.inr h2⟩
        · rw [if_neg h2] at h
          cases hp : pollLoop t (i + 2) n with
          | none => rw [hp] at h; exact absurd h (by simp)
          | some p =>
              obtain ⟨evs0, j0⟩ := p
              rw [hp] at h
              injection h with hpair
              injection hpair with he hj
              obtain ⟨hsh, hex⟩ := ih (i + 2) evs0 j0 hp
              subst he
              subst hj
              refine ⟨?_, hex⟩
              rw [List.length_cons, List.replicate_succ]
              exact congrArg (StepEvent.render :: ·) hsh

/-- C1: a call to `step()` made while the timeline is not playing does not
return until some timeline query sees playing or stopped (under a
never-playing, never-stopped timeline it spins forever for every iteration
bound), and during the polling phase only render calls occur — the trace of
every returning call is a block of renders followed by the single forced
`app.update()` tick and the single delegated physics step, with no physics
step among the polls. -/
theorem step_blocks_without_physics
    (t1 t2 t3 : Nat → TimelineState) (r1 r2 : Bool) (fuel1 fuel2 fuel3 : Nat)
    (tr : List StepEvent) (i3 j3 : Nat) (evs3 : List StepEvent)
    (h1 : ∀ i, t1 i = TimelineState.paused)
    (h2 : is_playing (t2 0) = false)
    (h3 : stepFn t2 r2 fuel2 = some tr)
    (h4 : pollLoop t3 i3 fuel3 = some (evs3, j3)) :
    stepFn t1 r1 fuel1 = none
    ∧ tr = List.replicate (tr.length - 2) StepEvent.render
        ++ [StepEvent.appUpdate, StepEvent.physicsStep r2]
    ∧ (is_playing (t3 j3) = true ∨ is_stopped (t3 j3) = true) := by
  refine ⟨?_, ?_, (pollLoop_only_renders t3 fuel3 i3 evs3 j3 h4).2⟩
  · rw [stepFn, h1 0]
    rw [pollLoop_spins_while_paused t1 h1 fuel1 1]
    rfl
  · rw [stepFn, if_neg (by rw [h2]; exact Bool.false_ne_true)] at h3
    cases hp : pollLoop t2 1 fuel2 with
    | none => rw [hp] at h3; exact absurd h3 (by simp)
    | some p =>
        obtain ⟨evs, j⟩ := p
        rw [hp] at h3
        have htr : evs ++ [StepEvent.appUpdate, StepEvent.physicsStep r2] = tr :=
          Option.some.inj h3
        obtain ⟨hsh, _⟩ := pollLoop_only_renders t2 fuel2 1 evs j hp
        subst htr
        have hlen : (evs ++ [StepEvent.appUpdate, StepEvent.physicsStep r2]).length - 2
            = evs.length := by
          simp
        rw [hlen]
        exact congrArg (· ++ [StepEvent.appUpdate, StepEvent.physicsStep r2]) hsh

/-- Witness for C1: a timeline that stays paused forever (the call never
returns), a timeline that starts playing at the fourth query (the call
returns after one poll render), and a loop run that exits on a stop. -/
theorem step_blocks_without_physics_witness :
    stepFn (fun _ => TimelineState.paused) true 3 = none
    ∧ [StepEvent.render, StepEvent.appUpdate, StepEvent.physicsStep false]
        = List.replicate
            (([StepEvent.render, StepEvent.appUpdate,
               StepEvent.physicsStep false] : List StepEvent).length - 2)
            StepEvent.render
          ++ [StepEvent.appUpdate, StepEvent.physicsStep false]
    ∧ (is_playing ((fun i => if 2 ≤ i then TimelineState.stopped
          else TimelineState.paused) 2) = true
       ∨ is_stopped ((fun i => if 2 ≤ i then TimelineState.stopped
          else TimelineState.paused) 2) = true) :=
  step_blocks_without_physics
    (fun _ => TimelineState.paused)
    (fun i => if 3 ≤ i then TimelineState.playing else TimelineState.paused)
    (fun i => if 2 ≤ i then TimelineState.stopped else TimelineState.paused)
    true false 3 10 5
    [StepEvent.render, StepEvent.appUpdate, StepEvent.physicsStep false]
    1 2 [StepEvent.render]
    (fun _ => rfl) (by decide) (by decide) (by decide)

/-- Witness for C5 with the defaulted configuration (`cfg = None`) and a
stage-less environment. -/
theorem init_without_stage_fails_witness :
    (SimulationContext.init none
        ⟨0, 0, "", "", fun _ => 0, false, false, false, false, false,
          ⟨false, 0, 0, 0, 0, 0⟩⟩
        ⟨false, true⟩).error = some PyError.preconditionError
    ∧ InitEvent.superInit ∉ (SimulationContext.init none
        ⟨0, 0, "", "", fun _ => 0, false, false, false, false, false,
          ⟨false, 0, 0, 0, 0, 0⟩⟩
        ⟨false, true⟩).events :=
  init_without_stage_fails none
    ⟨0, 0, "", "", fun _ => 0, false, false, false, false, false,
      ⟨false, 0, 0, 0, 0, 0⟩⟩
    ⟨false, true⟩ rfl

/-- C6: callback registration by `reset(soft=False)` is idempotent — with
the `shutdown_app_on_stop` flag enabled, after any number of `reset` calls
starting from a registry holding the shutdown callback at most once, the
shutdown callback is still registered at most once. -/
theorem reset_shutdown_callback_at_most_once (cfg : SimulationCfg) (n : Nat)
    (s : CallbackState)
    (hflag : cfg.shutdown_app_on_stop = true)
    (h : s.timeline_callbacks.count shutdownCallbackName ≤ 1) :
    (resetN cfg n s).timeline_callbacks.count shutdownCallbackName ≤ 1 := by
  induction n generalizing s with
  | zero => exact h
  | succ n ih =>
      refine ih (reset cfg s false).1 ?_
      by_cases hc : (cfg.shutdown_app_on_stop
          && !timeline_callback_exists s shutdownCallbackName) = true
      · have h2 := ((Bool.and_eq_true _ _).mp hc).2
        have hnm : shutdownCallbackName ∉ s.timeline_callbacks := by
          simp [timeline_callback_exists] at h2
          exact h2
        have h0 : s.timeline_callbacks.count shutdownCallbackName = 0 :=
          List.count_eq_zero.mpr hnm
        have hr : (reset cfg s false).1 = add_timeline_callback s shutdownCallbackName := by
          simp [reset, hc]
        rw [hr]
        simp [add_timeline_callback, List.count_append, h0]
      · have hr : (reset cfg s false).1 = s := by
          simp [reset, hc]
        rw [hr]
        exact h

/-- Witness for C6: three consecutive hard resets with the flag enabled
leave at most one registration. -/
theorem reset_shutdown_callback_at_most_once_witness :
    (resetN ⟨0, 0, "", "", fun _ => 0, false, false, true, false, false,
        ⟨false, 0, 0, 0, 0, 0⟩⟩ 3
      ⟨[]⟩).timeline_callbacks.count shutdownCallbackName ≤ 1 :=
  reset_shutdown_callback_at_most_once
    ⟨0, 0, "", "", fun _ => 0, false, false, true, false, false,
      ⟨false, 0, 0, 0, 0, 0⟩⟩ 3 ⟨[]⟩ rfl (by decide)

/-- C7: for every non-zero gravity vector, the decomposition written by
`_set_additional_physx_params` yields a direction vector of unit magnitude
and a magnitude scalar equal to the Euclidean norm (`np.linalg.norm`, i.e.
the `L2` norm) of the input vector. -/
theorem gravity_decomposition_unit_norm (cfg : SimulationCfg) (year : Int)
    (w : PhysxSceneWrites)
    (hv : ¬(cfg.gravity 0 = 0 ∧ cfg.gravity 1 = 0 ∧ cfg.gravity 2 = 0))
    (hw : set_additional_physx_params cfg true year = Except.ok w) :
    norm3 w.gravity_direction_attr = 1
    ∧ w.gravity_magnitude_attr = norm3 cfg.gravity
    ∧ w.gravity_magnitude_attr = ‖(WithLp.equiv 2 (Fin 3 → ℝ)).symm cfg.gravity‖ := by
  simp only [set_additional_physx_params, if_neg (by simp : ¬(true = false)),
    Except.ok.injEq] at hw
  subst hw
  have hS : 0 < cfg.gravity 0 ^ 2 + cfg.gravity 1 ^ 2 + cfg.gravity 2 ^ 2 := by
    have h0 := sq_nonneg (cfg.gravity 0)
    have h1 := sq_nonneg (cfg.gravity 1)
    have h2 := sq_nonneg (cfg.gravity 2)
    rcases (show cfg.gravity 0 ≠ 0 ∨ cfg.gravity 1 ≠ 0 ∨ cfg.gravity 2 ≠ 0 by tauto)
      with hne | hne | hne
    · have : 0 < cfg.gravity 0 ^ 2 := by positivity
      linarith
    · have : 0 < cfg.gravity 1 ^ 2 := by positivity
      linarith
    · have : 0 < cfg.gravity 2 ^ 2 := by positivity
      linarith
  have hn : 0 < norm3 cfg.gravity := Real.sqrt_pos.mpr hS
  have hsq : norm3 cfg.gravity ^ 2
      = cfg.gravity 0 ^ 2 + cfg.gravity 1 ^ 2 + cfg.gravity 2 ^ 2 :=
    Real.sq_sqrt hS.le
  have hdir : norm3 (gravity_direction cfg.gravity) = 1 := by
    have hrfl : norm3 (gravity_direction cfg.gravity)
        = Real.sqrt ((cfg.gravity 0 / norm3 cfg.gravity) ^ 2
          + (cfg.gravity 1 / norm3 cfg.gravity) ^ 2
          + (cfg.gravity 2 / norm3 cfg.gravity) ^ 2) := rfl
    rw [hrfl, div_pow, div_pow, div_pow, div_add_div_same, div_add_div_same, ← hsq]
    rw [div_self (pow_ne_zero 2 (ne_of_gt hn))]
    exact Real.sqrt_one
  have heuc : norm3 cfg.gravity = ‖(WithLp.equiv 2 (Fin 3 → ℝ)).symm cfg.gravity‖ := by
    rw [EuclideanSpace.norm_eq, Fin.sum_univ_three]
    simp [norm3, Real.norm_eq_abs, sq_abs]
  exact ⟨hdir, rfl, heuc⟩

/-- Witness for C7 at the gravity vector `(-1, -1, -1)`. -/
theorem gravity_decomposition_unit_norm_witness :
    norm3 (PhysxSceneWrites.gravity_direction_attr
      ⟨false, 0, gravity_direction (fun _ => -1), norm3 (fun _ => -1),
       [("CreateMinIterationCountAttr", 0), ("CreateMaxIterationCountAttr", 0)],
       "/physicsScene/defaultMaterial"⟩) = 1
    ∧ PhysxSceneWrites.gravity_magnitude_attr
      ⟨false, 0, gravity_direction (fun _ => -1), norm3 (fun _ => -1),
       [("CreateMinIterationCountAttr", 0), ("CreateMaxIterationCountAttr", 0)],
       "/physicsScene/defaultMaterial"⟩ = norm3 (fun _ => -1)
    ∧ PhysxSceneWrites.gravity_magnitude_attr
      ⟨false, 0, gravity_direction (fun _ => -1), norm3 (fun _ => -1),
       [("CreateMinIterationCountAttr", 0), ("CreateMaxIterationCountAttr", 0)],
       "/physicsScene/defaultMaterial"⟩
      = ‖(WithLp.equiv 2 (Fin 3 → ℝ)).symm (fun _ => -1)‖ :=
  gravity_decomposition_unit_norm
    ⟨0, 0, "", "/physicsScene", fun _ => -1, false, false, false, false, false,
      ⟨false, 0, 0, 0, 0, 0⟩⟩ 2022
    ⟨false, 0, gravity_direction (fun _ => -1), norm3 (fun _ => -1),
     [("CreateMinIterationCountAttr", 0), ("CreateMaxIterationCountAttr", 0)],
     "/physicsScene/defaultMaterial"⟩
    (by norm_num) rfl

/-- C10: the gravity decomposition divides by the norm of the configured
gravity vector with no guard: for the zero gravity vector (and the physics
scene API present), `_set_additional_physx_params` raises nothing — it
returns successfully, the written magnitude is 0, and the direction written
is the result of the componentwise division by zero. -/
theorem zero_gravity_division_reached (cfg : SimulationCfg) (year : Int)
    (hg : cfg.gravity = fun _ => 0) :
    (set_additional_physx_params cfg true year).toOption.map
        PhysxSceneWrites.gravity_magnitude_attr = some 0
    ∧ (set_additional_physx_params cfg true year).toOption.map
        PhysxSceneWrites.gravity_direction_attr = some (fun i => cfg.gravity i / 0) := by
  have h0 : norm3 cfg.gravity = 0 := by
    rw [hg]
    simp [norm3]
  have hdir : gravity_direction cfg.gravity = fun i => cfg.gravity i / 0 := by
    funext i
    simp [gravity_direction, h0]
  constructor
  · simp [set_additional_physx_params, Except.toOption, h0]
  · simp [set_additional_physx_params, Except.toOption, hdir]

/-- Witness for C10 at the zero gravity vector. -/
theorem zero_gravity_division_reached_witness :
    (set_additional_physx_params
        ⟨0, 0, "", "", fun _ => 0, false, false, false, false, false,
          ⟨false, 0, 0, 0, 0, 0⟩⟩ true 2023).toOption.map
        PhysxSceneWrites.gravity_magnitude_attr = some 0
    ∧ (set_additional_physx_params
        ⟨0, 0, "", "", fun _ => 0, false, false, false, false, false,
          ⟨false, 0, 0, 0, 0, 0⟩⟩ true 2023).toOption.map
        PhysxSceneWrites.gravity_direction_attr
      = some (fun i => (fun _ => (0 : ℝ)) i / 0) :=
  zero_gravity_division_reached
    ⟨0, 0, "", "", fun _ => 0, false, false, false, false, false,
      ⟨false, 0, 0, 0, 0, 0⟩⟩ 2023 rfl

/-- C8: `get_version()` returns exactly the 3-tuple of integers parsed from
elements [2], [3] and [4] of the raw version sequence, in that order: every
successful return's components are the parses of those elements, and
whenever those elements exist and parse, the call succeeds with them. -/
theorem get_version_parses_components
    (v w : List String) (x y z : Int) (sa sb sc : String) (xa xb xc : Int)
    (hv : get_version v = some (x, y, z))
    (hw2 : w.get? 2 = some sa) (hw3 : w.get? 3 = some sb) (hw4 : w.get? 4 = some sc)
    (ha : pyInt sa = some xa) (hb : pyInt sb = some xb) (hc : pyInt sc = some xc) :
    ((v.get? 2).bind pyInt = some x ∧ (v.get? 3).bind pyInt = some y
      ∧ (v.get? 4).bind pyInt = some z)
    ∧ get_version w = some (xa, xb, xc) := by
  constructor
  · simp only [get_version, Option.bind_eq_bind, Option.bind_eq_some, Option.pure_def,
      Option.some.injEq, Prod.mk.injEq] at hv
    obtain ⟨s2, h2, a, ha2, s3, h3, b, hb3, s4, h4, c, hc4, hx, hy, hz⟩ := hv
    subst hx hy hz
    refine ⟨?_, ?_, ?_⟩
    · rw [h2]
      simpa using ha2
    · rw [h3]
      simpa using hb3
    · rw [h4]
      simpa using hc4
  · simp only [List.get?_eq_getElem?] at hw2 hw3 hw4
    simp [get_version, hw2, hw3, hw4, ha, hb, hc]

/-- Witness for C8 on the raw sequence
`["app", "build", "2023", "1", "0"]`. -/
theorem get_version_parses_components_witness :
    ((["app", "build", "2023", "1", "0"].get? 2).bind pyInt = some 2023
      ∧ (["app", "build", "2023", "1", "0"].get? 3).bind pyInt = some 1
      ∧ (["app", "build", "2023", "1", "0"].get? 4).bind pyInt = some 0)
    ∧ get_version ["app", "build", "2023", "1", "0"] = some (2023, 1, 0) :=
  get_version_parses_components
    ["app", "build", "2023", "1", "0"] ["app", "build", "2023", "1", "0"]
    2023 1 0 "2023" "1" "0" 2023 1 0
    (by decide) rfl rfl rfl (by decide) (by decide) (by decide)

end Orbit
